import Mathlib

/-!
# r1emu supervisor lifecycle: server.c and game_session.c

A shallow embedding of `src/common/server/server.c` and
`src/common/session/game_session.c`.

The C functions call collaborators whose code lives elsewhere (crypto, router,
worker, the sub-sessions, the allocator, fork and execv).  Each collaborator is
an outcome supplied by an environment record, and every function returns, next
to its C result, the list of collaborator calls it made, in program order.
-/

namespace R1emu

/-! ## Data model -/

/-- Address of a C string (`char *`); `0` is `NULL`. -/
abbrev Ptr := Nat

/-- Contents of a C string, without its terminator. -/
abbrev CString := List Char

/-- String memory: what a `char *` reads through to. -/
abbrev Heap := Ptr → CString

/-- Modelled from the spec: `MySQLStartupInfo` is declared in a header that is
not part of `src/`; the fields are those `serverCreateProcess` reads with `%s`
(database host, user, password, name). -/
structure MySQLStartupInfo where
  hostname : Ptr
  user : Ptr
  password : Ptr
  database : Ptr
deriving DecidableEq, Repr

/-- Modelled from the spec: `RedisStartupInfo` is declared in a header that is
not part of `src/`; the fields are those `serverCreateProcess` reads (cache host
with `%s`, cache port with `%d`). -/
structure RedisStartupInfo where
  hostname : Ptr
  port : Int
deriving DecidableEq, Repr

/-- Modelled from the spec: `WorkerStartupInfo` is declared in `worker.h`, which
is not part of `src/`; the fields are those `serverCreateProcess` reads. -/
structure WorkerStartupInfo where
  sqlInfo : MySQLStartupInfo
  redisInfo : RedisStartupInfo
  globalServerIp : Ptr
  globalServerPort : Int
deriving DecidableEq, Repr

/-- Modelled from the spec: `RouterStartupInfo` is declared in `router.h`, which
is not part of `src/`; the fields are those `server.c` reads.  `workersCount` is
a natural number: `server.c` prints it with `%d` and counts up to it with an
`int` in `serverStart` and `serverFree`, and with a `uint16_t` in `serverInit`. -/
structure RouterStartupInfo where
  routerId : Nat
  ip : Ptr
  port : Int
  workersCount : Nat
deriving DecidableEq, Repr

/-- The `ServerStartupInfo` record.  The C pair `workersInfo` (array) and
`workersInfoCount` (its length) is one list: `workersInfoCount` is
`workersInfo.length`. -/
structure ServerStartupInfo where
  serverType : Int
  routerInfo : RouterStartupInfo
  workersInfo : List WorkerStartupInfo
  output : Ptr
deriving DecidableEq, Repr

/-- The `workersInfoCount` field. -/
def ServerStartupInfo.workersInfoCount (self : ServerStartupInfo) : Nat :=
  self.workersInfo.length

/-- A `Worker *` or `Router *` cell: `NULL`, memory that was never written
(as `malloc` returns it), or a handle a collaborator created. -/
inductive Handle where
  | null
  | uninit
  | live (id : Nat)
deriving DecidableEq, Repr

/-- What `self->workers[i]` designates: nothing when `self->workers` is `NULL`,
nothing when `i` is past the allocated array, otherwise the cell. -/
inductive Target where
  | noArray
  | outOfBounds
  | cell (h : Handle)
deriving DecidableEq, Repr

/-- The `struct Server`. -/
structure Server where
  router : Handle
  workers : Option (List Handle)
  info : ServerStartupInfo
deriving DecidableEq, Repr

/-- A `Server` as `calloc` returns it: every byte zero. -/
def Server.zeroed : Server :=
  { router := Handle.null
    workers := none
    info :=
      { serverType := 0
        routerInfo := { routerId := 0, ip := 0, port := 0, workersCount := 0 }
        workersInfo := []
        output := 0 } }

/-- The messages `server.c` passes to `error`. -/
inductive Msg where
  | serverFailedToInitialize
  | cannotInitStartupInfo
  | cannotInitCrypto
  | cannotAllocateRouter
  | cannotAllocateWorkers
  | cannotAllocateWorker
  | cannotStartWorker (i : Nat)
  | cannotStartRouter
  | cannotLaunchExecutable
  | gameSessionFailedToInitialize
deriving DecidableEq, Repr

/-- One observable step of the supervisor: a call to a collaborator, to the
allocator, or to the logger. -/
inductive Event where
  | serverStartupInfoInit
  | cryptoInit
  | routerNew (info : RouterStartupInfo)
  | mallocWorkers (count : Nat)
  | workerNew (workerId : Nat) (info : Option WorkerStartupInfo)
  | workerStart (i : Nat) (worker : Target)
  | routerStart (router : Handle)
  | workerDestroy (i : Nat) (slot : Target)
  | routerDestroy (router : Handle)
  | free
  | error (msg : Msg)
deriving DecidableEq, Repr

/-- How a call ends: it returns a value; or it writes through a `NULL` pointer
and the process is gone; or the `uint16_t` counter of the worker loop of
`serverInit` has wrapped to `0` below its bound, so that the loop starts over at
worker `0` and the call has not returned.  The calls recorded end there. -/
inductive Outcome (α : Type) where
  | returned (value : α)
  | crashed
  | counterWrapped
deriving DecidableEq, Repr

/-- Outcomes of the collaborators of `server.c`, one per call site.  The worker
calls are told apart by the index of the worker they are made for.
`mallocWorkersInfo` is the allocation inside `serverStartupInfoInit`,
`mallocWorkers` the one inside `serverInit`. -/
structure Env where
  calloc : Bool
  mallocWorkersInfo : Bool
  cryptoInit : Bool
  routerNew : Bool
  mallocWorkers : Bool
  workerNew : Nat → Bool
  workerStart : Nat → Bool
  routerStart : Bool

/-- The cell `self->workers[i]`. -/
def Server.slot (self : Server) (i : Nat) : Target :=
  match self.workers with
  | none => Target.noArray
  | some ws =>
    match ws[i]? with
    | none => Target.outOfBounds
    | some h => Target.cell h

/-! ## server.c -/

/-- `serverStartupInfoInit` (server.c 110-133), on the record `self` it fills:
`memcpy` of the router record, an array from `malloc` whose result is not
checked, a `memcpy` of each worker record into it, and plain assignments of
`serverType`, `workersInfoCount` and the `output` pointer.  When `malloc` returns
`NULL` and there is a worker record to copy, the first `memcpy` writes through
`NULL`; with no record to copy the loop body is never run.  Every path that
returns, returns `true`.  The records are copied as they are: a pointer field of
the copy is the pointer the caller passed. -/
def serverStartupInfoInit (env : Env) (self : ServerStartupInfo) (serverType : Int)
    (routerInfo : RouterStartupInfo) (workersInfo : List WorkerStartupInfo) (output : Ptr) :
    Outcome Bool × ServerStartupInfo :=
  let self1 := { self with routerInfo := routerInfo }
  if env.mallocWorkersInfo then
    (Outcome.returned true,
      { self1 with
        workersInfo := workersInfo.map (fun w => w)
        serverType := serverType
        output := output })
  else if workersInfo.length = 0 then
    (Outcome.returned true,
      { self1 with
        workersInfo := []
        serverType := serverType
        output := output })
  else
    (Outcome.crashed, { self1 with workersInfo := [] })

/-- The worker loop of `serverInit` (server.c 98-105): `workerId` is the
`uint16_t` counter, `workers` the array, and `remaining` is
`workersCount - workerId`, so that `remaining = 0` is the loop test
`workerId < workersCount` failing.  A failed `workerNew` stores `NULL` in the cell
and returns `false` at once.  After a successful `workerNew` the counter is
incremented; at `65535` the increment gives `0`, which is below the bound, and
the loop starts over. -/
def serverInitWorkers (env : Env) (info : ServerStartupInfo) :
    Nat → Nat → List Handle → Outcome Bool × List Handle × List Event
  | 0, _, workers => (Outcome.returned true, workers, [])
  | remaining + 1, workerId, workers =>
    if env.workerNew workerId then
      if workerId + 1 < 65536 then
        let r := serverInitWorkers env info remaining (workerId + 1)
          (workers.set workerId (Handle.live workerId))
        (r.1, r.2.1, Event.workerNew workerId info.workersInfo[workerId]? :: r.2.2)
      else
        (Outcome.counterWrapped, workers.set workerId (Handle.live workerId),
          [Event.workerNew workerId info.workersInfo[workerId]?])
    else
      (Outcome.returned false, workers.set workerId Handle.null,
        [Event.workerNew workerId info.workersInfo[workerId]?,
         Event.error Msg.cannotAllocateWorker])

/-- `serverInit` (server.c 62-108).  Returns how the call ends, the `Server` as
the function leaves it, and the calls made; `serverStartupInfoInit` is one step
of the trace, its allocation included. -/
def serverInit (env : Env) (self : Server) (info : ServerStartupInfo) :
    Outcome Bool × Server × List Event :=
  let snap := serverStartupInfoInit env self.info info.serverType info.routerInfo
    info.workersInfo info.output
  let self1 := { self with info := snap.2 }
  match snap.1 with
  | Outcome.crashed => (Outcome.crashed, self1, [Event.serverStartupInfoInit])
  | Outcome.counterWrapped => (Outcome.counterWrapped, self1, [Event.serverStartupInfoInit])
  | Outcome.returned false =>
    (Outcome.returned false, self1,
      [Event.serverStartupInfoInit, Event.error Msg.cannotInitStartupInfo])
  | Outcome.returned true =>
    if !env.cryptoInit then
      (Outcome.returned false, self1,
        [Event.serverStartupInfoInit, Event.cryptoInit, Event.error Msg.cannotInitCrypto])
    else if !env.routerNew then
      (Outcome.returned false, { self1 with router := Handle.null },
        [Event.serverStartupInfoInit, Event.cryptoInit, Event.routerNew info.routerInfo,
         Event.error Msg.cannotAllocateRouter])
    else
      let self2 := { self1 with router := Handle.live 0 }
      if !env.mallocWorkers then
        (Outcome.returned false, { self2 with workers := none },
          [Event.serverStartupInfoInit, Event.cryptoInit, Event.routerNew info.routerInfo,
           Event.mallocWorkers info.routerInfo.workersCount,
           Event.error Msg.cannotAllocateWorkers])
      else
        let r := serverInitWorkers env info info.routerInfo.workersCount 0
          (List.replicate info.routerInfo.workersCount Handle.uninit)
        (r.1, { self2 with workers := some r.2.1 },
          [Event.serverStartupInfoInit, Event.cryptoInit, Event.routerNew info.routerInfo,
           Event.mallocWorkers info.routerInfo.workersCount] ++ r.2.2)

/-- The worker loop of `serverStart` (server.c 206-211). -/
def serverStartWorkers (env : Env) (self : Server) : Nat → Nat → Bool × List Event
  | 0, _ => (true, [])
  | remaining + 1, i =>
    if env.workerStart i then
      let r := serverStartWorkers env self remaining (i + 1)
      (r.1, Event.workerStart i (self.slot i) :: r.2)
    else
      (false, [Event.workerStart i (self.slot i), Event.error (Msg.cannotStartWorker i)])

/-- `serverStart` (server.c 201-220). -/
def serverStart (env : Env) (self : Server) : Bool × List Event :=
  let r := serverStartWorkers env self self.info.routerInfo.workersCount 0
  if !r.1 then
    (false, r.2)
  else if !env.routerStart then
    (false, r.2 ++ [Event.routerStart self.router, Event.error Msg.cannotStartRouter])
  else
    (true, r.2 ++ [Event.routerStart self.router])

/-- `serverGetRouterId` (server.c 222-227). -/
def serverGetRouterId (self : Server) : Nat :=
  self.info.routerInfo.routerId

/-- `serverFree` (server.c 229-238): `workerDestroy (&self->workers[i])` for every
`i` below `self->info.workersInfoCount`, then `routerDestroy (&self->router)`. -/
def serverFree (self : Server) : List Event :=
  (List.range self.info.workersInfoCount).map (fun i => Event.workerDestroy i (self.slot i))
    ++ [Event.routerDestroy self.router]

/-- `serverDestroy` (server.c 240-252).  The argument is the caller's reference
`*_self`; the first component of the result is that reference afterwards. -/
def serverDestroy (ref : Option Server) : Option Server × List Event :=
  match ref with
  | some self => (none, serverFree self ++ [Event.free])
  | none => (none, [])

/-- An argument of a `printf`-style call: a string for `%s`, an integer for `%d`. -/
inductive FmtArg where
  | str (s : CString)
  | int (n : Int)
deriving DecidableEq, Repr

/-- What `%d` prints: the decimal digits, after a minus sign when negative. -/
def decimal : Int → CString
  | Int.ofNat m => Nat.toDigits 10 m
  | Int.negSucc m => '-' :: Nat.toDigits 10 (m + 1)

/-- The `printf`-style formatter `zsys_sprintf`, for the two conversions
`server.c` uses.  `%s` copies the next string argument, `%d` prints the next
integer argument in decimal, every other character of the format is copied. -/
def zsys_sprintf : List Char → List FmtArg → CString
  | '%' :: 's' :: fmt, FmtArg.str s :: args => s ++ zsys_sprintf fmt args
  | '%' :: 'd' :: fmt, FmtArg.int n :: args => decimal n ++ zsys_sprintf fmt args
  | c :: fmt, args => c :: zsys_sprintf fmt args
  | [], _ => []

/-- Modelled from the spec: `strSplit` is declared in `common/utils/string.h`,
which is not part of `src/`.  It cuts the command line at every occurrence of
the delimiter and returns the pieces in order. -/
def strSplit (s : CString) (delim : Char) : List CString :=
  s.splitOn delim

/-- Outcomes of the process primitives: what `fork` returns in the process
observed, and whether `execv` fails (returns `-1`) there. -/
structure ProcEnv where
  fork : Int
  execvFails : Bool

/-- How a call of `serverCreateProcess` ends in the process observed: it returns
a result to its caller, or `execv` replaced the program image and the call never
returns. -/
inductive Exit where
  | returned (result : Bool)
  | imageReplaced
deriving DecidableEq, Repr

/-- One observable step of `serverCreateProcess`. -/
inductive ProcEvent where
  | info (commandLine : CString)
  | fork
  | execv (executableName : CString) (argv : List CString)
  | error (msg : Msg)
  | freeArgv
  | freeCommandLine
deriving DecidableEq, Repr

/-- What one call of `serverCreateProcess` did. -/
structure Launch where
  commandLine : CString
  argv : List CString
  exit : Exit
  events : List ProcEvent
deriving DecidableEq, Repr

/-- `serverCreateProcess` (server.c 136-199), the branch compiled without `WIN32`.
`none` is the read of `self->workersInfo[0]` when the snapshot has no worker
record. -/
def serverCreateProcess (env : ProcEnv) (heap : Heap) (self : ServerStartupInfo)
    (executableName : CString) : Option Launch :=
  match self.workersInfo[0]? with
  | none => none
  | some w0 =>
    let sqlInfo := w0.sqlInfo
    let redisInfo := w0.redisInfo
    let globalServerIp := w0.globalServerIp
    let globalServerPort := w0.globalServerPort
    let commandLine := zsys_sprintf "%s %d %s %d".toList
      [FmtArg.str executableName,
       FmtArg.int self.routerInfo.routerId,
       FmtArg.str (heap self.routerInfo.ip),
       FmtArg.int self.routerInfo.port]
    let lastCommandLine := zsys_sprintf "%s %d %s %d %s %s %s %s %s %d %d %s".toList
      [FmtArg.str commandLine,
       FmtArg.int self.routerInfo.workersCount,
       FmtArg.str (heap globalServerIp),
       FmtArg.int globalServerPort,
       FmtArg.str (heap sqlInfo.hostname), FmtArg.str (heap sqlInfo.user),
       FmtArg.str (heap sqlInfo.password), FmtArg.str (heap sqlInfo.database),
       FmtArg.str (heap redisInfo.hostname), FmtArg.int redisInfo.port,
       FmtArg.int self.serverType,
       FmtArg.str (heap self.output)]
    let commandLine := lastCommandLine
    let argv := strSplit commandLine ' '
    if env.fork = 0 then
      if env.execvFails then
        some
          { commandLine := commandLine
            argv := argv
            exit := Exit.returned false
            events := [ProcEvent.info commandLine, ProcEvent.fork,
              ProcEvent.execv executableName argv, ProcEvent.error Msg.cannotLaunchExecutable] }
      else
        some
          { commandLine := commandLine
            argv := argv
            exit := Exit.imageReplaced
            events := [ProcEvent.info commandLine, ProcEvent.fork,
              ProcEvent.execv executableName argv] }
    else
      some
        { commandLine := commandLine
          argv := argv
          exit := Exit.returned true
          events := [ProcEvent.info commandLine, ProcEvent.fork, ProcEvent.freeArgv,
            ProcEvent.freeCommandLine] }

/-! ## The snapshot read through to its strings -/

/-- One worker record with every string field read through the heap. -/
structure WorkerView where
  sqlHostname : CString
  sqlUser : CString
  sqlPassword : CString
  sqlDatabase : CString
  redisHostname : CString
  redisPort : Int
  globalServerIp : CString
  globalServerPort : Int
deriving DecidableEq, Repr

/-- A `ServerStartupInfo` with every string field read through the heap. -/
structure InfoView where
  serverType : Int
  routerId : Nat
  ip : CString
  port : Int
  workersCount : Nat
  workers : List WorkerView
  output : CString
deriving DecidableEq, Repr

/-- Read one worker record through the heap. -/
def WorkerStartupInfo.view (heap : Heap) (w : WorkerStartupInfo) : WorkerView :=
  { sqlHostname := heap w.sqlInfo.hostname
    sqlUser := heap w.sqlInfo.user
    sqlPassword := heap w.sqlInfo.password
    sqlDatabase := heap w.sqlInfo.database
    redisHostname := heap w.redisInfo.hostname
    redisPort := w.redisInfo.port
    globalServerIp := heap w.globalServerIp
    globalServerPort := w.globalServerPort }

/-- Read a snapshot through the heap. -/
def ServerStartupInfo.view (heap : Heap) (self : ServerStartupInfo) : InfoView :=
  { serverType := self.serverType
    routerId := self.routerInfo.routerId
    ip := heap self.routerInfo.ip
    port := self.routerInfo.port
    workersCount := self.routerInfo.workersCount
    workers := self.workersInfo.map (WorkerStartupInfo.view heap)
    output := heap self.output }

/-- Overwrite the string stored at one address. -/
def Heap.write (heap : Heap) (p : Ptr) (s : CString) : Heap :=
  fun q => if q = p then s else heap q

/-! ## game_session.c -/

/-- The `GameSession` aggregate: for each sub-session, whether its initializer
has been run on it. -/
structure GameSession where
  commanderSession : Bool
  barrackSession : Bool
deriving DecidableEq, Repr

/-- Outcomes of the collaborators of `game_session.c`: the allocator and what
each sub-session initializer reports. -/
structure SessionEnv where
  calloc : Bool
  commanderSessionInit : Bool
  barrackSessionInit : Bool

/-- One observable step of `game_session.c`. -/
inductive SessionEvent where
  | memset
  | commanderSessionInit
  | barrackSessionInit
  | gameSessionFree
  | error (msg : Msg)
deriving DecidableEq, Repr

/-- `gameSessionInit` (game_session.c 41-52): zero the aggregate, call the two
sub-session initializers as statements, `return true`. -/
def gameSessionInit (_env : SessionEnv) (_self : GameSession) :
    Bool × GameSession × List SessionEvent :=
  (true, { commanderSession := true, barrackSession := true },
    [SessionEvent.memset, SessionEvent.commanderSessionInit, SessionEvent.barrackSessionInit])

/-- `gameSessionFree` (game_session.c 71-76). -/
def gameSessionFree (_self : Option GameSession) : List SessionEvent :=
  [SessionEvent.gameSessionFree]

/-- `gameSessionDestroy` (game_session.c 63-69). -/
def gameSessionDestroy (ref : Option GameSession) : Option GameSession × List SessionEvent :=
  (none, gameSessionFree ref)

/-- `gameSessionNew` (game_session.c 22-39). -/
def gameSessionNew (env : SessionEnv) : Option GameSession × List SessionEvent :=
  if !env.calloc then
    (none, [])
  else
    let r := gameSessionInit env { commanderSession := false, barrackSession := false }
    if !r.1 then
      let d := gameSessionDestroy (some r.2.1)
      (none, r.2.2 ++ d.2 ++ [SessionEvent.error Msg.gameSessionFailedToInitialize])
    else
      (some r.2.1, r.2.2)

/-! ## The words of the specification -/

/-- The collaborator calls of a trace: the trace without its log entries. -/
def calls (trace : List Event) : List Event :=
  trace.filter (fun e => match e with
    | Event.error _ => false
    | _ => true)

/-- The steps the specification lists for `initialize`, in its order: capture the
snapshot, initialise crypto, create the router, allocate the worker array,
create worker `0` to worker `n - 1`. -/
def initPlan (info : ServerStartupInfo) : List Event :=
  [Event.serverStartupInfoInit, Event.cryptoInit, Event.routerNew info.routerInfo,
   Event.mallocWorkers info.routerInfo.workersCount]
    ++ (List.range info.routerInfo.workersCount).map
        (fun i => Event.workerNew i info.workersInfo[i]?)

/-- Whether a step of `initPlan` succeeds under the given collaborator outcomes.
Capturing the snapshot is the repository's own `serverStartupInfoInit`, which
succeeds when it returns `true`. -/
def Env.stepOk (env : Env) (self : Server) (info : ServerStartupInfo) : Event → Bool
  | Event.serverStartupInfoInit =>
    decide ((serverStartupInfoInit env self.info info.serverType info.routerInfo
      info.workersInfo info.output).1 = Outcome.returned true)
  | Event.cryptoInit => env.cryptoInit
  | Event.routerNew _ => env.routerNew
  | Event.mallocWorkers _ => env.mallocWorkers
  | Event.workerNew i _ => env.workerNew i
  | _ => true

/-- Ordered and short-circuiting, in the words of the specification: perform the
steps in order and stop at the first one that fails. -/
def runPlan (ok : Event → Bool) : List Event → List Event
  | [] => []
  | e :: es => if ok e then e :: runPlan ok es else [e]

/-! ## Concrete configurations and outcomes -/

/-- String memory of the examples. -/
def exampleHeap : Heap := fun p =>
  match p with
  | 1 => "out.log".toList
  | 2 => "127.0.0.1".toList
  | 3 => "10.0.0.9".toList
  | 4 => "dbhost".toList
  | 5 => "r1emu".toList
  | 6 => "secret".toList
  | 7 => "r1db".toList
  | 8 => "cachehost".toList
  | 9 => "my logs".toList
  | _ => []

/-- A worker record of the examples. -/
def exampleWorker : WorkerStartupInfo :=
  { sqlInfo := { hostname := 4, user := 5, password := 6, database := 7 }
    redisInfo := { hostname := 8, port := 6379 }
    globalServerIp := 3
    globalServerPort := 2000 }

/-- A configuration with three workers. -/
def exampleInfo3 : ServerStartupInfo :=
  { serverType := 2
    routerInfo := { routerId := 1, ip := 2, port := 2001, workersCount := 3 }
    workersInfo := [exampleWorker, exampleWorker, exampleWorker]
    output := 1 }

/-- A configuration with 65536 workers, one more than the `uint16_t` counter of
`serverInit` can count. -/
def exampleInfoWide : ServerStartupInfo :=
  { serverType := 2
    routerInfo := { routerId := 1, ip := 2, port := 2001, workersCount := 65536 }
    workersInfo := List.replicate 65536 exampleWorker
    output := 1 }

/-- A configuration with no worker. -/
def exampleInfo0 : ServerStartupInfo :=
  { serverType := 2
    routerInfo := { routerId := 1, ip := 2, port := 2001, workersCount := 0 }
    workersInfo := []
    output := 1 }

/-- The three-worker configuration with an output path that holds a space. -/
def exampleInfoSpace : ServerStartupInfo :=
  { exampleInfo3 with output := 9 }

/-- Every collaborator succeeds. -/
def envAllOk : Env :=
  { calloc := true
    mallocWorkersInfo := true
    cryptoInit := true
    routerNew := true
    mallocWorkers := true
    workerNew := fun _ => true
    workerStart := fun _ => true
    routerStart := true }

/-- Every collaborator succeeds except the creation and the start of worker 1. -/
def envWorker1Fails : Env :=
  { envAllOk with
    workerNew := fun i => i != 1
    workerStart := fun i => i != 1 }

/-- Every collaborator succeeds except `cryptoInit`. -/
def envCryptoFails : Env :=
  { envAllOk with cryptoInit := false }

/-- Every collaborator succeeds except the allocation of the worker array. -/
def envMallocFails : Env :=
  { envAllOk with mallocWorkers := false }

/-- The session collaborators when the commander sub-session initializer
reports failure. -/
def sessionEnvCommanderFails : SessionEnv :=
  { calloc := true, commanderSessionInit := false, barrackSessionInit := true }

/-- The child process in which `execv` fails. -/
def procEnvChildExecvFails : ProcEnv :=
  { fork := 0, execvFails := true }

/-- The parent process: `fork` returned the child's process id. -/
def procEnvParent : ProcEnv :=
  { fork := 4242, execvFails := false }

/-- The fifteen fields of the command-line schema, in its order: executable
name; router identity, address, port; worker count; global-directory address and
port; database host, user, password, name; cache host and port; server role;
output path.  Integers are in decimal; the global-directory, database and cache
fields are those of the worker record `w0`. -/
def launchFields (heap : Heap) (self : ServerStartupInfo) (w0 : WorkerStartupInfo)
    (executableName : CString) : List CString :=
  [executableName,
   decimal self.routerInfo.routerId,
   heap self.routerInfo.ip,
   decimal self.routerInfo.port,
   decimal self.routerInfo.workersCount,
   heap w0.globalServerIp,
   decimal w0.globalServerPort,
   heap w0.sqlInfo.hostname,
   heap w0.sqlInfo.user,
   heap w0.sqlInfo.password,
   heap w0.sqlInfo.database,
   heap w0.redisInfo.hostname,
   decimal w0.redisInfo.port,
   decimal self.serverType,
   heap self.output]

/-- The fields of the schema that are strings. -/
def launchStrings (heap : Heap) (self : ServerStartupInfo) (w0 : WorkerStartupInfo)
    (executableName : CString) : List CString :=
  [executableName,
   heap self.routerInfo.ip,
   heap w0.globalServerIp,
   heap w0.sqlInfo.hostname,
   heap w0.sqlInfo.user,
   heap w0.sqlInfo.password,
   heap w0.sqlInfo.database,
   heap w0.redisInfo.hostname,
   heap self.output]

/-! ## Lemmas on the loops -/

/-- What `runPlan` performs is an initial segment of the plan. -/
theorem runPlan_isPrefix (ok : Event → Bool) (plan : List Event) :
    runPlan ok plan <+: plan := by
  induction plan with
  | nil => simp [runPlan]
  | cons e es ih =>
    by_cases h : ok e
    · simpa [runPlan, h] using (List.prefix_cons_inj e).2 ih
    · simp only [runPlan, h]
      exact ⟨es, rfl⟩

/-- When every step succeeds, `runPlan` performs the whole plan. -/
theorem runPlan_eq_self (ok : Event → Bool) (plan : List Event)
    (h : ∀ e ∈ plan, ok e = true) : runPlan ok plan = plan := by
  induction plan with
  | nil => rfl
  | cons e es ih =>
    have he : ok e = true := h e (by simp)
    have hes : ∀ x ∈ es, ok x = true := fun x hx => h x (by simp [hx])
    simp [runPlan, he, ih hes]

/-- Every step `runPlan` performs before its last one succeeded. -/
theorem runPlan_dropLast_ok (ok : Event → Bool) (plan : List Event) :
    ∀ e ∈ (runPlan ok plan).dropLast, ok e = true := by
  induction plan with
  | nil => simp [runPlan]
  | cons a es ih =>
    intro e he
    by_cases h : ok a
    · simp only [runPlan, h, if_true] at he
      cases hr : runPlan ok es with
      | nil => simp [hr] at he
      | cons b bs =>
        rw [hr, List.dropLast_cons₂] at he
        rcases List.mem_cons.1 he with rfl | he2
        · exact h
        · exact ih e (by rw [hr]; exact he2)
    · simp [runPlan, h] at he

/-- `serverStartupInfoInit` returns `true` or writes through `NULL`; it returns
exactly when the allocation succeeds or there is no worker record to copy. -/
theorem serverStartupInfoInit_outcome (env : Env) (self info : ServerStartupInfo) :
    ((serverStartupInfoInit env self info.serverType info.routerInfo info.workersInfo
        info.output).1 = Outcome.returned true ↔
      (env.mallocWorkersInfo = true ∨ info.workersInfo = [])) ∧
    ((serverStartupInfoInit env self info.serverType info.routerInfo info.workersInfo
        info.output).1 = Outcome.returned true ∨
      (serverStartupInfoInit env self info.serverType info.routerInfo info.workersInfo
        info.output).1 = Outcome.crashed) := by
  cases hm : env.mallocWorkersInfo
  · by_cases hl : info.workersInfo = []
    · simp [serverStartupInfoInit, hm, hl]
    · simp [serverStartupInfoInit, hm, hl]
  · simp [serverStartupInfoInit, hm]

/-- The record a returning `serverStartupInfoInit` leaves is the configuration. -/
theorem serverStartupInfoInit_copy (env : Env) (self info : ServerStartupInfo)
    (h : (serverStartupInfoInit env self info.serverType info.routerInfo info.workersInfo
      info.output).1 = Outcome.returned true) :
    (serverStartupInfoInit env self info.serverType info.routerInfo info.workersInfo
      info.output).2 = info := by
  cases hm : env.mallocWorkersInfo
  · by_cases hl : info.workersInfo = []
    · cases info
      simp only at hl
      simp [serverStartupInfoInit, hm, hl]
    · simp [serverStartupInfoInit, hm, hl] at h
  · cases info
    simp [serverStartupInfoInit, hm]

/-- The worker loop of `serverInit` returns true exactly when the counter can
reach the bound and `workerNew` succeeds at each index it ranges over. -/
theorem serverInitWorkers_result (env : Env) (info : ServerStartupInfo) :
    ∀ (remaining workerId : Nat) (workers : List Handle),
      (serverInitWorkers env info remaining workerId workers).1 = Outcome.returned true ↔
        (remaining = 0 ∨ workerId + remaining ≤ 65535) ∧
          ∀ i, workerId ≤ i → i < workerId + remaining → env.workerNew i = true := by
  intro remaining
  induction remaining with
  | zero =>
    intro workerId workers
    simp only [serverInitWorkers, true_iff]
    exact ⟨by simp, fun i h1 h2 => by omega⟩
  | succ r ih =>
    intro workerId workers
    by_cases h : env.workerNew workerId
    · by_cases hw : workerId + 1 < 65536
      · simp only [serverInitWorkers, h, hw, if_true, ih]
        constructor
        · rintro ⟨hb, hall⟩
          refine ⟨Or.inr (by omega), ?_⟩
          intro i h1 h2
          rcases Nat.eq_or_lt_of_le h1 with rfl | hlt
          · exact h
          · exact hall i hlt (by omega)
        · rintro ⟨hb, hall⟩
          exact ⟨by omega, fun i h1 h2 => hall i (by omega) (by omega)⟩
      · simp only [serverInitWorkers, h, hw, if_true, if_false]
        constructor
        · intro hf
          cases hf
        · rintro ⟨hb, _⟩
          omega
    · simp only [serverInitWorkers, h]
      constructor
      · intro hf
        simp at hf
      · rintro ⟨_, hall⟩
        exact absurd (hall workerId (le_refl _) (by omega)) h

/-- The worker loop of `serverInit` ends on a wrapped counter when `workerNew`
succeeds up to index 65535 and the bound lies beyond. -/
theorem serverInitWorkers_wraps (env : Env) (info : ServerStartupInfo) :
    ∀ (remaining workerId : Nat) (workers : List Handle),
      workerId ≤ 65535 → 65535 < workerId + remaining →
      (∀ i, workerId ≤ i → i ≤ 65535 → env.workerNew i = true) →
      (serverInitWorkers env info remaining workerId workers).1 = Outcome.counterWrapped := by
  intro remaining
  induction remaining with
  | zero =>
    intro workerId workers h1 h2
    omega
  | succ r ih =>
    intro workerId workers h1 h2 hall
    have h : env.workerNew workerId = true := hall workerId (le_refl _) h1
    by_cases hw : workerId + 1 < 65536
    · simp only [serverInitWorkers, h, hw, if_true]
      exact ih _ _ (by omega) (by omega) (fun i hi1 hi2 => hall i (by omega) hi2)
    · simp only [serverInitWorkers, h, hw, if_true, if_false]

/-- The collaborator calls of the worker loop of `serverInit`, for a bound the
counter can reach. -/
theorem serverInitWorkers_calls (env : Env) (self : Server) (info : ServerStartupInfo) :
    ∀ (remaining workerId : Nat) (workers : List Handle),
      workerId + remaining ≤ 65535 →
      calls (serverInitWorkers env info remaining workerId workers).2.2 =
        runPlan (env.stepOk self info) ((List.range' workerId remaining).map
          (fun i => Event.workerNew i info.workersInfo[i]?)) := by
  intro remaining
  induction remaining with
  | zero =>
    intro workerId workers _
    simp [serverInitWorkers, calls, runPlan]
  | succ r ih =>
    intro workerId workers hb
    have hw : workerId + 1 < 65536 := by omega
    have ih2 := ih (workerId + 1) (workers.set workerId (Handle.live workerId)) (by omega)
    by_cases h : env.workerNew workerId
    · simp only [calls] at ih2
      simp [serverInitWorkers, h, hw, List.range'_succ, runPlan, Env.stepOk, calls, ih2]
    · simp [serverInitWorkers, h, List.range'_succ, runPlan, Env.stepOk, calls]

/-- The worker loop of `serverInit` calls `workerNew` at an index only after it
succeeded at every smaller index of its range. -/
theorem serverInitWorkers_mem (env : Env) (info : ServerStartupInfo) :
    ∀ (remaining workerId : Nat) (workers : List Handle) (j : Nat)
      (w : Option WorkerStartupInfo),
      Event.workerNew j w ∈ (serverInitWorkers env info remaining workerId workers).2.2 →
        workerId ≤ j ∧ j < workerId + remaining ∧
          ∀ i, workerId ≤ i → i < j → env.workerNew i = true := by
  intro remaining
  induction remaining with
  | zero =>
    intro workerId workers j w hmem
    simp [serverInitWorkers] at hmem
  | succ r ih =>
    intro workerId workers j w hmem
    by_cases h : env.workerNew workerId
    · by_cases hw : workerId + 1 < 65536
      · simp only [serverInitWorkers, h, hw, if_true, List.mem_cons] at hmem
        rcases hmem with heq | hmem
        · injection heq with hj _
          subst hj
          exact ⟨le_refl _, by omega, fun i h1 h2 => by omega⟩
        · obtain ⟨h1, h2, h3⟩ := ih _ _ j w hmem
          refine ⟨by omega, by omega, ?_⟩
          intro i hi1 hi2
          rcases Nat.eq_or_lt_of_le hi1 with rfl | hlt
          · exact h
          · exact h3 i hlt hi2
      · simp only [serverInitWorkers, h, hw, if_true, if_false, List.mem_singleton] at hmem
        injection hmem with hj _
        subst hj
        exact ⟨le_refl _, by omega, fun i h1 h2 => by omega⟩
    · simp only [serverInitWorkers, h] at hmem
      simp at hmem
      obtain ⟨hj, _⟩ := hmem
      subst hj
      exact ⟨le_refl _, by omega, fun i h1 h2 => by omega⟩

/-- When every `workerNew` succeeds and the counter can reach the bound, the
loop fills the array with the handles in index order. -/
theorem serverInitWorkers_cells (env : Env) (info : ServerStartupInfo) :
    ∀ (remaining workerId : Nat),
      workerId + remaining ≤ 65535 →
      (∀ i, workerId ≤ i → i < workerId + remaining → env.workerNew i = true) →
      (serverInitWorkers env info remaining workerId
          ((List.range workerId).map Handle.live ++ List.replicate remaining Handle.uninit)).2.1
        = (List.range (workerId + remaining)).map Handle.live := by
  intro remaining
  induction remaining with
  | zero =>
    intro workerId _ _
    simp [serverInitWorkers]
  | succ r ih =>
    intro workerId hb hall
    have h : env.workerNew workerId = true := hall workerId (le_refl _) (by omega)
    have hw : workerId + 1 < 65536 := by omega
    have hset : ((List.range workerId).map Handle.live
          ++ List.replicate (r + 1) Handle.uninit).set workerId (Handle.live workerId)
        = (List.range (workerId + 1)).map Handle.live ++ List.replicate r Handle.uninit := by
      rw [List.set_append_right _ _ (by simp)]
      simp [List.replicate_succ, List.range_succ]
    simp only [serverInitWorkers, h, hw, if_true, hset]
    rw [ih (workerId + 1) (by omega) (fun i h1 h2 => hall i (by omega) (by omega))]
    congr 2
    omega

/-- `serverInit` returns true exactly when the snapshot is captured, every
collaborator it calls succeeds, and the counter can reach the worker count. -/
theorem serverInit_ok_iff (env : Env) (self : Server) (info : ServerStartupInfo) :
    (serverInit env self info).1 = Outcome.returned true ↔
      (serverStartupInfoInit env self.info info.serverType info.routerInfo info.workersInfo
        info.output).1 = Outcome.returned true ∧
      env.cryptoInit = true ∧ env.routerNew = true ∧ env.mallocWorkers = true ∧
        info.routerInfo.workersCount ≤ 65535 ∧
        ∀ i, i < info.routerInfo.workersCount → env.workerNew i = true := by
  rcases (serverStartupInfoInit_outcome env self.info info).2 with hs | hs
  · cases hc : env.cryptoInit <;> cases hr : env.routerNew <;> cases hm : env.mallocWorkers <;>
      simp [serverInit, hs, hc, hr, hm, serverInitWorkers_result]
    intro _
    omega
  · simp [serverInit, hs]

/-- The collaborator calls of `serverInit` are the plan run to its first failure,
for a worker count the counter can reach. -/
theorem serverInit_calls (env : Env) (self : Server) (info : ServerStartupInfo)
    (hbound : info.routerInfo.workersCount ≤ 65535) :
    calls (serverInit env self info).2.2 = runPlan (env.stepOk self info) (initPlan info) := by
  have hw := serverInitWorkers_calls env self info info.routerInfo.workersCount 0
    (List.replicate info.routerInfo.workersCount Handle.uninit) (by omega)
  rw [← List.range_eq_range'] at hw
  simp only [calls] at hw
  rcases (serverStartupInfoInit_outcome env self.info info).2 with hs | hs
  · cases hc : env.cryptoInit <;> cases hr : env.routerNew <;> cases hm : env.mallocWorkers <;>
      simp [serverInit, hs, hc, hr, hm, initPlan, runPlan, Env.stepOk, calls, hw]
  · simp [serverInit, hs, initPlan, runPlan, Env.stepOk, calls]

/-- The `Server` a successful `serverInit` leaves. -/
theorem serverInit_ok_state (env : Env) (self : Server) (info : ServerStartupInfo)
    (h : (serverInit env self info).1 = Outcome.returned true) :
    (serverInit env self info).2.1 =
      { router := Handle.live 0
        workers := some ((List.range info.routerInfo.workersCount).map Handle.live)
        info := info } := by
  obtain ⟨hs, hc, hr, hm, hb, hw⟩ := (serverInit_ok_iff env self info).1 h
  have hcopy := serverStartupInfoInit_copy env self.info info hs
  have hcells := serverInitWorkers_cells env info info.routerInfo.workersCount 0 (by omega)
    (fun i _ h2 => hw i (by omega))
  simp only [List.range_zero, List.map_nil, List.nil_append, Nat.zero_add] at hcells
  simp [serverInit, hs, hc, hr, hm, hcells, hcopy]

/-- With more workers configured than the counter can count and every
collaborator succeeding, `serverInit` ends on a wrapped counter. -/
theorem serverInit_wraps (env : Env) (self : Server) (info : ServerStartupInfo)
    (hs : (serverStartupInfoInit env self.info info.serverType info.routerInfo
      info.workersInfo info.output).1 = Outcome.returned true)
    (hc : env.cryptoInit = true) (hr : env.routerNew = true) (hm : env.mallocWorkers = true)
    (hn : 65535 < info.routerInfo.workersCount)
    (hw : ∀ i, i ≤ 65535 → env.workerNew i = true) :
    (serverInit env self info).1 = Outcome.counterWrapped := by
  have hloop := serverInitWorkers_wraps env info info.routerInfo.workersCount 0
    (List.replicate info.routerInfo.workersCount Handle.uninit) (by omega) (by omega)
    (fun i _ h2 => hw i h2)
  simp [serverInit, hs, hc, hr, hm, hloop]

/-- The worker loop of `serverStart` when every start succeeds. -/
theorem serverStartWorkers_all (env : Env) (self : Server) :
    ∀ (remaining i : Nat),
      (∀ j, i ≤ j → j < i + remaining → env.workerStart j = true) →
      serverStartWorkers env self remaining i =
        (true, (List.range' i remaining).map (fun j => Event.workerStart j (self.slot j))) := by
  intro remaining
  induction remaining with
  | zero =>
    intro i _
    simp [serverStartWorkers]
  | succ r ih =>
    intro i hall
    have h : env.workerStart i = true := hall i (le_refl _) (by omega)
    simp [serverStartWorkers, h, ih (i + 1) (fun j h1 h2 => hall j (by omega) (by omega)),
      List.range'_succ]

/-- The worker loop of `serverStart` when the first failing start is `m` places
into its range. -/
theorem serverStartWorkers_fail (env : Env) (self : Server) :
    ∀ (remaining i m : Nat), m < remaining →
      (∀ j, i ≤ j → j < i + m → env.workerStart j = true) →
      env.workerStart (i + m) = false →
      serverStartWorkers env self remaining i =
        (false, (List.range' i (m + 1)).map (fun j => Event.workerStart j (self.slot j))
          ++ [Event.error (Msg.cannotStartWorker (i + m))]) := by
  intro remaining
  induction remaining with
  | zero =>
    intro i m hm
    omega
  | succ r ih =>
    intro i m hm hall hfail
    cases m with
    | zero =>
      simp only [Nat.add_zero] at hfail
      simp [serverStartWorkers, hfail, List.range'_succ]
    | succ m =>
      have h : env.workerStart i = true := hall i (le_refl _) (by omega)
      have hfail2 : env.workerStart (i + 1 + m) = false := by
        rw [show i + 1 + m = i + (m + 1) by omega]
        exact hfail
      have ih2 := ih (i + 1) m (by omega) (fun j h1 h2 => hall j (by omega) (by omega)) hfail2
      simp only [serverStartWorkers, h, if_true, ih2]
      rw [List.range'_succ i (m + 1)]
      simp [show i + 1 + m = i + (m + 1) by omega]

/-- On an array of handles in index order, cell `j` holds handle `j`. -/
theorem range_map_slot (n : Nat) (router : Handle) (info : ServerStartupInfo)
    (f : Nat → Target → Event) (m : Nat) (hm : m ≤ n) :
    (List.range m).map (fun j => f j
      (Server.slot { router := router, workers := some ((List.range n).map Handle.live),
                     info := info } j))
      = (List.range m).map (fun j => f j (Target.cell (Handle.live j))) := by
  apply List.map_congr_left
  intro j hj
  have hj2 : j < n := lt_of_lt_of_le (List.mem_range.1 hj) hm
  simp [Server.slot, List.getElem?_map, List.getElem?_range hj2]

/-- A decimal digit is not a space. -/
theorem digitChar_ne_space (d : Nat) (hd : d < 10) : Nat.digitChar d ≠ ' ' := by
  interval_cases d <;> decide

/-- The digits of a number hold no space. -/
theorem toDigitsCore_no_space :
    ∀ (fuel n : Nat) (ds : List Char), ' ' ∉ ds → ' ' ∉ Nat.toDigitsCore 10 fuel n ds := by
  intro fuel
  induction fuel with
  | zero =>
    intro n ds h
    simpa [Nat.toDigitsCore] using h
  | succ f ih =>
    intro n ds h
    have hcons : ' ' ∉ Nat.digitChar (n % 10) :: ds := by
      simp only [List.mem_cons, not_or]
      exact ⟨fun hc => digitChar_ne_space _ (Nat.mod_lt _ (by decide)) hc.symm, h⟩
    simp only [Nat.toDigitsCore]
    split
    · exact hcons
    · exact ih _ _ hcons

/-- What `%d` prints holds no space. -/
theorem decimal_no_space (n : Int) : ' ' ∉ decimal n := by
  cases n with
  | ofNat m =>
    exact toDigitsCore_no_space _ _ _ (by simp)
  | negSucc m =>
    simp only [decimal, List.mem_cons, not_or]
    exact ⟨by decide, toDigitsCore_no_space _ _ _ (by simp)⟩

/-- Every step of the plan succeeds when the snapshot is captured and every
collaborator of `serverInit` succeeds. -/
theorem initPlan_all_ok (env : Env) (self : Server) (info : ServerStartupInfo)
    (hs : (serverStartupInfoInit env self.info info.serverType info.routerInfo
      info.workersInfo info.output).1 = Outcome.returned true)
    (hc : env.cryptoInit = true) (hr : env.routerNew = true) (hm : env.mallocWorkers = true)
    (hw : ∀ i, i < info.routerInfo.workersCount → env.workerNew i = true) :
    ∀ e ∈ initPlan info, env.stepOk self info e = true := by
  intro e he
  simp only [initPlan, List.cons_append, List.nil_append, List.mem_cons, List.mem_map,
    List.mem_range] at he
  rcases he with rfl | rfl | rfl | rfl | ⟨i, hi, rfl⟩
  · simpa [Env.stepOk] using hs
  · simpa [Env.stepOk] using hc
  · simpa [Env.stepOk] using hr
  · simpa [Env.stepOk] using hm
  · simpa [Env.stepOk] using hw i hi

/-- Short-circuit order of `serverInit` for a worker count its counter can
reach: the collaborator calls are the listed steps (capture snapshot,
cryptoInit, routerNew, allocate the worker array, workerNew 0 to n - 1)
performed in order up to and including the first one that fails; they are a
prefix of the plan, every step before the last one performed succeeded,
workerNew is called for an index only if it succeeded at every smaller index,
a failing cryptoInit means no router and no worker is created, and `serverInit`
returns true exactly when every step of the plan succeeds. -/
theorem serverInit_short_circuit_in_range (env : Env) (self : Server)
    (info : ServerStartupInfo) (hbound : info.routerInfo.workersCount ≤ 65535) :
    calls (serverInit env self info).2.2 = runPlan (env.stepOk self info) (initPlan info) ∧
    calls (serverInit env self info).2.2 <+: initPlan info ∧
    (∀ e ∈ (calls (serverInit env self info).2.2).dropLast, env.stepOk self info e = true) ∧
    (∀ k j w, env.workerNew k = false → k < j →
      Event.workerNew j w ∉ (serverInit env self info).2.2) ∧
    (env.cryptoInit = false → ∀ e ∈ (serverInit env self info).2.2,
      (∀ r, e ≠ Event.routerNew r) ∧ (∀ j w, e ≠ Event.workerNew j w)) ∧
    ((serverInit env self info).1 = Outcome.returned true ↔
      ∀ e ∈ initPlan info, env.stepOk self info e = true) ∧
    ((serverInit env self info).1 = Outcome.returned true →
      calls (serverInit env self info).2.2 = initPlan info) := by
  have hcalls := serverInit_calls env self info hbound
  have hiff : (serverInit env self info).1 = Outcome.returned true ↔
      ∀ e ∈ initPlan info, env.stepOk self info e = true := by
    rw [serverInit_ok_iff]
    simp only [initPlan, List.cons_append, List.nil_append, List.mem_cons, List.mem_map,
      List.mem_range]
    constructor
    · rintro ⟨hs, hc, hr, hm, _, hw⟩ e he
      apply initPlan_all_ok env self info hs hc hr hm hw
      simpa only [initPlan, List.cons_append, List.nil_append, List.mem_cons, List.mem_map,
        List.mem_range] using he
    · intro hall
      refine ⟨?_, ?_, ?_, ?_, hbound, ?_⟩
      · simpa [Env.stepOk] using hall Event.serverStartupInfoInit (by simp)
      · simpa [Env.stepOk] using hall Event.cryptoInit (by simp)
      · simpa [Env.stepOk] using hall (Event.routerNew info.routerInfo) (by simp)
      · simpa [Env.stepOk] using
          hall (Event.mallocWorkers info.routerInfo.workersCount) (by simp)
      · intro i hi
        simpa [Env.stepOk] using
          hall (Event.workerNew i info.workersInfo[i]?)
            (Or.inr (Or.inr (Or.inr (Or.inr ⟨i, hi, rfl⟩))))
  refine ⟨hcalls, ?_, ?_, ?_, ?_, hiff, ?_⟩
  · rw [hcalls]
    exact runPlan_isPrefix _ _
  · rw [hcalls]
    exact runPlan_dropLast_ok _ _
  · intro k j w hk hkj hmem
    have hmem2 : Event.workerNew j w ∈
        (serverInitWorkers env info info.routerInfo.workersCount 0
          (List.replicate info.routerInfo.workersCount Handle.uninit)).2.2 := by
      rcases (serverStartupInfoInit_outcome env self.info info).2 with hs | hs
      · cases hc : env.cryptoInit <;> cases hr : env.routerNew <;>
          cases hm : env.mallocWorkers <;>
          simp [serverInit, hs, hc, hr, hm] at hmem
        exact hmem
      · simp [serverInit, hs] at hmem
    obtain ⟨_, _, h3⟩ := serverInitWorkers_mem env info _ _ _ j w hmem2
    have := h3 k (Nat.zero_le _) hkj
    rw [hk] at this
    exact Bool.noConfusion this
  · intro hc e he
    rcases (serverStartupInfoInit_outcome env self.info info).2 with hs | hs
    · simp [serverInit, hs, hc] at he
      rcases he with rfl | rfl | rfl <;> simp
    · simp [serverInit, hs] at he
      subst he
      simp
  · intro hok
    rw [hcalls]
    exact runPlan_eq_self _ _ (hiff.1 hok)

/-! ## Claims -/

/-- C2 on the code: with 65536 workers configured and every step of the plan
succeeding, `serverInit` does not return true.  After `workerNew` succeeds at
index 65535 its `uint16_t` counter is back at 0, below the bound, and the loop
starts over at worker 0. -/
theorem serverInit_counter_wraps :
    exampleInfoWide.routerInfo.workersCount = 65536 ∧
    exampleInfoWide.workersInfoCount = exampleInfoWide.routerInfo.workersCount ∧
    (∀ e ∈ initPlan exampleInfoWide,
      envAllOk.stepOk Server.zeroed exampleInfoWide e = true) ∧
    (serverInit envAllOk Server.zeroed exampleInfoWide).1 = Outcome.counterWrapped ∧
    (serverInit envAllOk Server.zeroed exampleInfoWide).1 ≠ Outcome.returned true := by
  have hs : (serverStartupInfoInit envAllOk Server.zeroed.info exampleInfoWide.serverType
      exampleInfoWide.routerInfo exampleInfoWide.workersInfo exampleInfoWide.output).1 =
      Outcome.returned true :=
    (serverStartupInfoInit_outcome envAllOk Server.zeroed.info exampleInfoWide).1.2
      (Or.inl rfl)
  have hn : 65535 < exampleInfoWide.routerInfo.workersCount := by
    norm_num [exampleInfoWide]
  have hwrap := serverInit_wraps envAllOk Server.zeroed exampleInfoWide hs rfl rfl rfl
    hn (fun _ _ => rfl)
  refine ⟨rfl, List.length_replicate 65536 exampleWorker, ?_, hwrap, ?_⟩
  · exact initPlan_all_ok envAllOk Server.zeroed exampleInfoWide hs rfl rfl rfl
      (fun _ _ => rfl)
  · rw [hwrap]
    exact fun h => Outcome.noConfusion h

/-- C1: on a Supervisor that `serverInit` initialised, with `n` workers,
`serverStart` calls `workerStart` on workers 0, 1, 2, ... in increasing order.
If the first failing worker start is at index `i`, the calls are exactly the
worker starts 0 to `i`, then the log entry, and the result is false: no later
worker is started and `routerStart` is not called.  If all `n` worker starts
succeed, the calls are the `n` worker starts followed by one `routerStart`, and
the result is that of `routerStart`.  `routerStart` is called only when every
worker start succeeded, and the result is true exactly when all worker starts
and the router start succeeded. -/
theorem serverStart_order (env0 env : Env) (self0 : Server) (info : ServerStartupInfo)
    (hinit : (serverInit env0 self0 info).1 = Outcome.returned true) :
    (∀ i, i < info.routerInfo.workersCount →
      (∀ j, j < i → env.workerStart j = true) → env.workerStart i = false →
      serverStart env (serverInit env0 self0 info).2.1 =
        (false, (List.range (i + 1)).map
            (fun j => Event.workerStart j (Target.cell (Handle.live j)))
          ++ [Event.error (Msg.cannotStartWorker i)])) ∧
    ((∀ j, j < info.routerInfo.workersCount → env.workerStart j = true) →
      (serverStart env (serverInit env0 self0 info).2.1).1 = env.routerStart ∧
      calls (serverStart env (serverInit env0 self0 info).2.1).2 =
        (List.range info.routerInfo.workersCount).map
            (fun j => Event.workerStart j (Target.cell (Handle.live j)))
          ++ [Event.routerStart (Handle.live 0)]) ∧
    ((∃ r, Event.routerStart r ∈ (serverStart env (serverInit env0 self0 info).2.1).2) →
      ∀ j, j < info.routerInfo.workersCount → env.workerStart j = true) ∧
    ((serverStart env (serverInit env0 self0 info).2.1).1 = true ↔
      (∀ j, j < info.routerInfo.workersCount → env.workerStart j = true) ∧
        env.routerStart = true) := by
  rw [serverInit_ok_state env0 self0 info hinit]
  have hfailcase : ∀ i, i < info.routerInfo.workersCount →
      (∀ j, j < i → env.workerStart j = true) → env.workerStart i = false →
      serverStart env { router := Handle.live 0
                        workers := some ((List.range info.routerInfo.workersCount).map
                          Handle.live)
                        info := info } =
        (false, (List.range (i + 1)).map
            (fun j => Event.workerStart j (Target.cell (Handle.live j)))
          ++ [Event.error (Msg.cannotStartWorker i)]) := by
    intro i hi hbefore hfail
    have hloop := serverStartWorkers_fail env
      { router := Handle.live 0
        workers := some ((List.range info.routerInfo.workersCount).map Handle.live)
        info := info } info.routerInfo.workersCount 0 i hi
      (fun j _ h2 => hbefore j (by omega)) (by simpa using hfail)
    rw [← List.range_eq_range', Nat.zero_add,
      range_map_slot info.routerInfo.workersCount (Handle.live 0) info Event.workerStart
        (i + 1) (by omega)] at hloop
    simp [serverStart, hloop]
  have hallcase : (∀ j, j < info.routerInfo.workersCount → env.workerStart j = true) →
      serverStartWorkers env
        { router := Handle.live 0
          workers := some ((List.range info.routerInfo.workersCount).map Handle.live)
          info := info } info.routerInfo.workersCount 0 =
        (true, (List.range info.routerInfo.workersCount).map
            (fun j => Event.workerStart j (Target.cell (Handle.live j)))) := by
    intro hall
    have hloop := serverStartWorkers_all env
      { router := Handle.live 0
        workers := some ((List.range info.routerInfo.workersCount).map Handle.live)
        info := info } info.routerInfo.workersCount 0 (fun j _ h2 => hall j (by omega))
    rw [← List.range_eq_range',
      range_map_slot info.routerInfo.workersCount (Handle.live 0) info Event.workerStart
        info.routerInfo.workersCount (le_refl _)] at hloop
    exact hloop
  have hdich : (∀ j, j < info.routerInfo.workersCount → env.workerStart j = true) ∨
      ∃ i, i < info.routerInfo.workersCount ∧
        (∀ j, j < i → env.workerStart j = true) ∧ env.workerStart i = false := by
    by_cases hex : ∃ i, i < info.routerInfo.workersCount ∧ env.workerStart i = false
    · right
      classical
      refine ⟨Nat.find hex, (Nat.find_spec hex).1, ?_, (Nat.find_spec hex).2⟩
      intro j hj
      have hnot := Nat.find_min hex hj
      have hjn : j < info.routerInfo.workersCount := lt_trans hj (Nat.find_spec hex).1
      cases hv : env.workerStart j
      · exact absurd ⟨hjn, hv⟩ hnot
      · rfl
    · left
      intro j hj
      cases hv : env.workerStart j
      · exact absurd ⟨j, hj, hv⟩ hex
      · rfl
  refine ⟨hfailcase, ?_, ?_, ?_⟩
  · intro hall
    have hloop := hallcase hall
    cases hr : env.routerStart <;>
      simp [serverStart, hloop, hr, calls, List.filter_append, List.filter_map,
        Function.comp_def]
  · rintro ⟨r, hmem⟩
    rcases hdich with hall | ⟨i, hi, hbefore, hfail⟩
    · exact hall
    · rw [hfailcase i hi hbefore hfail] at hmem
      simp at hmem
  · rcases hdich with hall | ⟨i, hi, hbefore, hfail⟩
    · have hloop := hallcase hall
      cases hr : env.routerStart <;> simp [serverStart, hloop, hr]
      · exact hall
    · rw [hfailcase i hi hbefore hfail]
      simp only [Bool.false_eq_true, false_iff, not_and]
      intro hall
      have := hall i hi
      rw [hfail] at this
      exact Bool.noConfusion this

/-- C8: on a Supervisor that `serverInit` initialised from a configuration with
`workersInfoCount = routerInfo.workersCount = n`, `serverDestroy` destroys the
worker handles 0 to `n - 1`, each once and in index order, then the router
handle, then frees the Supervisor, and leaves the caller's reference NULL; it
takes no account of which handles were started.  A second `serverDestroy` on the
reference it left makes no call and leaves the reference NULL. -/
theorem serverDestroy_complete_idempotent (env0 : Env) (self0 : Server)
    (info : ServerStartupInfo) (hinit : (serverInit env0 self0 info).1 = Outcome.returned true)
    (hinv : info.workersInfoCount = info.routerInfo.workersCount) :
    serverDestroy (some (serverInit env0 self0 info).2.1) =
      (none, (List.range info.routerInfo.workersCount).map
          (fun i => Event.workerDestroy i (Target.cell (Handle.live i)))
        ++ [Event.routerDestroy (Handle.live 0), Event.free]) ∧
    serverDestroy (serverDestroy (some (serverInit env0 self0 info).2.1)).1 = (none, []) := by
  rw [serverInit_ok_state env0 self0 info hinit]
  refine ⟨?_, rfl⟩
  simp only [serverDestroy, serverFree, hinv]
  rw [range_map_slot info.routerInfo.workersCount (Handle.live 0) info Event.workerDestroy
    info.routerInfo.workersCount (le_refl _)]
  simp

/-- Witness of C8: the three-worker configuration, every collaborator
succeeding. -/
theorem serverDestroy_complete_idempotent_witness :
    (serverInit envAllOk Server.zeroed exampleInfo3).1 = Outcome.returned true ∧
    exampleInfo3.workersInfoCount = exampleInfo3.routerInfo.workersCount ∧
    serverDestroy (some (serverInit envAllOk Server.zeroed exampleInfo3).2.1) =
      (none, (List.range exampleInfo3.routerInfo.workersCount).map
          (fun i => Event.workerDestroy i (Target.cell (Handle.live i)))
        ++ [Event.routerDestroy (Handle.live 0), Event.free]) :=
  ⟨by decide, by decide,
    (serverDestroy_complete_idempotent envAllOk Server.zeroed exampleInfo3
      (by decide) (by decide)).1⟩

/-- Witness of C1: three workers initialised, the start of worker 1 failing. -/
theorem serverStart_order_witness :
    (serverInit envAllOk Server.zeroed exampleInfo3).1 = Outcome.returned true ∧
    serverStart envWorker1Fails (serverInit envAllOk Server.zeroed exampleInfo3).2.1 =
      (false, [Event.workerStart 0 (Target.cell (Handle.live 0)),
               Event.workerStart 1 (Target.cell (Handle.live 1)),
               Event.error (Msg.cannotStartWorker 1)]) :=
  ⟨by decide,
    (serverStart_order envAllOk envWorker1Fails Server.zeroed exampleInfo3 (by decide)).1 1
      (by decide) (by decide) (by decide)⟩

/-- C9, as stated, fails: with no worker configured and snapshot capture,
`cryptoInit` and `routerNew` all succeeding, `serverInit` still returns false when
the allocation of the worker array fails. -/
theorem serverInit_zero_workers_malloc_fails :
    exampleInfo0.routerInfo.workersCount = 0 ∧ exampleInfo0.workersInfo = [] ∧
    (serverStartupInfoInit envMallocFails Server.zeroed.info exampleInfo0.serverType
      exampleInfo0.routerInfo exampleInfo0.workersInfo exampleInfo0.output).1 =
        Outcome.returned true ∧
    envMallocFails.cryptoInit = true ∧ envMallocFails.routerNew = true ∧
    (serverInit envMallocFails Server.zeroed exampleInfo0).1 = Outcome.returned false ∧
    (serverInit envMallocFails Server.zeroed exampleInfo0).2.2 =
      [Event.serverStartupInfoInit, Event.cryptoInit,
       Event.routerNew exampleInfo0.routerInfo, Event.mallocWorkers 0,
       Event.error Msg.cannotAllocateWorkers] := by
  decide

/-- C9, amended: with `workersCount = 0` and no worker configuration, when
snapshot capture, `cryptoInit`, `routerNew` and the allocation of the worker
array succeed, `serverInit` returns true having created the router and called
`workerNew` zero times; a following `serverStart` calls `workerStart` zero times,
its one collaborator call is `routerStart`, and it returns what `routerStart`
returns. -/
theorem serverInit_zero_workers (env env1 : Env) (self : Server) (info : ServerStartupInfo)
    (hcount : info.routerInfo.workersCount = 0) (hnone : info.workersInfo = [])
    (hsnap : (serverStartupInfoInit env self.info info.serverType info.routerInfo
      info.workersInfo info.output).1 = Outcome.returned true)
    (hcrypto : env.cryptoInit = true) (hrouter : env.routerNew = true)
    (hmalloc : env.mallocWorkers = true) :
    (serverInit env self info).1 = Outcome.returned true ∧
    (serverInit env self info).2.2 =
      [Event.serverStartupInfoInit, Event.cryptoInit, Event.routerNew info.routerInfo,
       Event.mallocWorkers 0] ∧
    (serverInit env self info).2.1.router = Handle.live 0 ∧
    (serverInit env self info).2.1.workers = some [] ∧
    (serverInit env self info).2.1.info.workersInfo = [] ∧
    (serverStart env1 (serverInit env self info).2.1).1 = env1.routerStart ∧
    calls (serverStart env1 (serverInit env self info).2.1).2 =
      [Event.routerStart (Handle.live 0)] := by
  have hok : (serverInit env self info).1 = Outcome.returned true := by
    rw [serverInit_ok_iff]
    exact ⟨hsnap, hcrypto, hrouter, hmalloc, by omega, fun i hi => by omega⟩
  have hstate := serverInit_ok_state env self info hok
  refine ⟨hok, ?_, ?_, ?_, ?_, ?_, ?_⟩
  · simp [serverInit, hsnap, hcrypto, hrouter, hmalloc, hcount, serverInitWorkers]
  · rw [hstate]
  · rw [hstate, hcount]
    rfl
  · rw [hstate]
    exact hnone
  · rw [hstate]
    cases hr : env1.routerStart <;> simp [serverStart, hcount, serverStartWorkers, hr]
  · rw [hstate]
    cases hr : env1.routerStart <;> simp [serverStart, hcount, serverStartWorkers, hr, calls]

/-- Witness of C9, amended: the configuration without workers, every
collaborator succeeding. -/
theorem serverInit_zero_workers_witness :
    exampleInfo0.routerInfo.workersCount = 0 ∧ exampleInfo0.workersInfo = [] ∧
    envAllOk.mallocWorkers = true ∧
    (serverInit envAllOk Server.zeroed exampleInfo0).1 = Outcome.returned true ∧
    (serverStart envAllOk (serverInit envAllOk Server.zeroed exampleInfo0).2.1).1 = true :=
  ⟨by decide, by decide, by decide,
    (serverInit_zero_workers envAllOk envAllOk Server.zeroed exampleInfo0
      (by decide) (by decide) (by decide) (by decide) (by decide) (by decide)).1,
    (serverInit_zero_workers envAllOk envAllOk Server.zeroed exampleInfo0
      (by decide) (by decide) (by decide) (by decide) (by decide) (by decide)).2.2.2.2.2.1⟩

/-- C4 on the code: with three workers and `workerNew` failing at index 1,
`serverInit` leaves the worker array as worker 0, NULL, never-written memory, and
the teardown calls `workerDestroy` on all three cells, the one at index 1 and
the never-written one at index 2 included.  When `cryptoInit` fails there is no
worker array at all and the teardown still calls `workerDestroy` three times. -/
theorem serverDestroy_touches_uncreated_cells :
    (serverInit envWorker1Fails Server.zeroed exampleInfo3).1 = Outcome.returned false ∧
    (serverInit envWorker1Fails Server.zeroed exampleInfo3).2.1.workers =
      some [Handle.live 0, Handle.null, Handle.uninit] ∧
    (serverDestroy (some (serverInit envWorker1Fails Server.zeroed exampleInfo3).2.1)).2 =
      [Event.workerDestroy 0 (Target.cell (Handle.live 0)),
       Event.workerDestroy 1 (Target.cell Handle.null),
       Event.workerDestroy 2 (Target.cell Handle.uninit),
       Event.routerDestroy (Handle.live 0), Event.free] ∧
    (serverDestroy (some (serverInit envCryptoFails Server.zeroed exampleInfo3).2.1)).2 =
      [Event.workerDestroy 0 Target.noArray,
       Event.workerDestroy 1 Target.noArray,
       Event.workerDestroy 2 Target.noArray,
       Event.routerDestroy Handle.null, Event.free] := by
  decide

/-- C5 on the code: the snapshot's `output` field is the pointer the caller
passed, so after the caller overwrites its output path string the snapshot reads
the new contents, where the configuration it was captured from read `out.log`. -/
theorem snapshot_output_aliases_caller :
    (serverInit envAllOk Server.zeroed exampleInfo3).1 = Outcome.returned true ∧
    (serverInit envAllOk Server.zeroed exampleInfo3).2.1.info.output = exampleInfo3.output ∧
    ((serverInit envAllOk Server.zeroed exampleInfo3).2.1.info.view exampleHeap).output =
      "out.log".toList ∧
    ((serverInit envAllOk Server.zeroed exampleInfo3).2.1.info.view
      (exampleHeap.write exampleInfo3.output "elsewhere".toList)).output =
        "elsewhere".toList ∧
    (serverInit envAllOk Server.zeroed exampleInfo3).2.1.info.view exampleHeap ≠
      (serverInit envAllOk Server.zeroed exampleInfo3).2.1.info.view
        (exampleHeap.write exampleInfo3.output "elsewhere".toList) := by
  decide

/-- C7, as stated, fails: when the commander sub-session initializer reports
failure, `gameSessionInit` still returns true and `gameSessionNew` returns an
aggregate. -/
theorem gameSessionNew_ignores_sub_session_failure :
    sessionEnvCommanderFails.commanderSessionInit = false ∧
    (gameSessionInit sessionEnvCommanderFails
      { commanderSession := false, barrackSession := false }).1 = true ∧
    (gameSessionNew sessionEnvCommanderFails).1 =
      some { commanderSession := true, barrackSession := true } := by
  decide

/-- C7, amended: `gameSessionInit` zeroes the aggregate, runs the commander
sub-session initializer and then the barrack sub-session initializer, and
returns true whatever they report; `gameSessionNew` returns an aggregate exactly
when the allocation succeeds, both initializers have then been run on it, and
`gameSessionNew` never destroys an aggregate. -/
theorem gameSessionNew_both_initializers_run (env : SessionEnv) (self : GameSession) :
    gameSessionInit env self =
      (true, { commanderSession := true, barrackSession := true },
        [SessionEvent.memset, SessionEvent.commanderSessionInit,
         SessionEvent.barrackSessionInit]) ∧
    ((gameSessionNew env).1.isSome = true ↔ env.calloc = true) ∧
    (∀ g, (gameSessionNew env).1 = some g →
      g.commanderSession = true ∧ g.barrackSession = true ∧
      (gameSessionNew env).2 =
        [SessionEvent.memset, SessionEvent.commanderSessionInit,
         SessionEvent.barrackSessionInit]) ∧
    SessionEvent.gameSessionFree ∉ (gameSessionNew env).2 := by
  refine ⟨rfl, ?_, ?_, ?_⟩
  · cases hc : env.calloc <;> simp [gameSessionNew, gameSessionInit, hc]
  · intro g hg
    cases hc : env.calloc
    · simp [gameSessionNew, hc] at hg
    · simp [gameSessionNew, gameSessionInit, hc] at hg
      subst hg
      simp [gameSessionNew, gameSessionInit, hc]
  · cases hc : env.calloc <;> simp [gameSessionNew, gameSessionInit, hc]

/-- C10, as stated, fails: in the child, when `execv` fails, `serverCreateProcess`
logs the failure and returns false to its caller, so control does return. -/
theorem serverCreateProcess_child_returns :
    procEnvChildExecvFails.fork = 0 ∧ procEnvChildExecvFails.execvFails = true ∧
    (serverCreateProcess procEnvChildExecvFails exampleHeap exampleInfo3
      "zone_server".toList).map (fun launch => launch.exit) = some (Exit.returned false) := by
  decide

/-- C10, amended: for a snapshot with at least one worker record, in the parent
(`fork` result non-zero) `serverCreateProcess` returns true and its calls after
`fork` are the two releases, none of them a wait; in the child (`fork` result
zero), if `execv` fails the failure is logged and `serverCreateProcess` returns
false to its caller, and if `execv` succeeds the call never returns. -/
theorem serverCreateProcess_exits (env : ProcEnv) (heap : Heap) (self : ServerStartupInfo)
    (executableName : CString) (w0 : WorkerStartupInfo) (rest : List WorkerStartupInfo)
    (hworker : self.workersInfo = w0 :: rest) :
    ∃ launch, serverCreateProcess env heap self executableName = some launch ∧
      (env.fork ≠ 0 → launch.exit = Exit.returned true ∧
        launch.events = [ProcEvent.info launch.commandLine, ProcEvent.fork,
          ProcEvent.freeArgv, ProcEvent.freeCommandLine]) ∧
      (env.fork = 0 → env.execvFails = true →
        launch.exit = Exit.returned false ∧
        launch.events = [ProcEvent.info launch.commandLine, ProcEvent.fork,
          ProcEvent.execv executableName launch.argv,
          ProcEvent.error Msg.cannotLaunchExecutable]) ∧
      (env.fork = 0 → env.execvFails = false →
        launch.exit = Exit.imageReplaced ∧
        launch.events = [ProcEvent.info launch.commandLine, ProcEvent.fork,
          ProcEvent.execv executableName launch.argv]) := by
  by_cases hf : env.fork = 0
  · cases he : env.execvFails <;> simp [serverCreateProcess, hworker, hf, he]
  · simp [serverCreateProcess, hworker, hf]

/-- Witness of C10, amended: the parent of a three-worker snapshot. -/
theorem serverCreateProcess_exits_witness :
    exampleInfo3.workersInfo = exampleWorker :: [exampleWorker, exampleWorker] ∧
    procEnvParent.fork ≠ 0 ∧
    ∃ launch, serverCreateProcess procEnvParent exampleHeap exampleInfo3
        "zone_server".toList = some launch ∧ launch.exit = Exit.returned true :=
  ⟨rfl, by decide,
    (serverCreateProcess_exits procEnvParent exampleHeap exampleInfo3 "zone_server".toList
      exampleWorker [exampleWorker, exampleWorker] rfl).imp
      (fun _ h => ⟨h.1, (h.2.1 (by decide)).1⟩)⟩

/-- C6, as stated, fails: with an output path that holds a space the command
line is still the fifteen fields joined by single spaces, but the token sequence
cut from it has sixteen tokens, the path being cut in two. -/
theorem serverCreateProcess_space_in_field :
    exampleInfoSpace.workersInfo ≠ [] ∧
    exampleHeap exampleInfoSpace.output = "my logs".toList ∧
    (serverCreateProcess procEnvParent exampleHeap exampleInfoSpace
      "zone_server".toList).map (fun launch => launch.argv.length) = some 16 ∧
    (serverCreateProcess procEnvParent exampleHeap exampleInfoSpace
      "zone_server".toList).map (fun launch => launch.argv.drop 13) =
        some ["2".toList, "my".toList, "logs".toList] := by
  decide

/-- C6, amended: for a snapshot with at least one worker record, the command
line `serverCreateProcess` builds is exactly the fifteen fields of the schema, in
its order, joined by single spaces, integers in decimal, the global-directory,
database and cache fields being those of worker record 0; and when no string
field holds a space, the token sequence cut from it is exactly those fifteen
fields in that order. -/
theorem serverCreateProcess_commandLine (env : ProcEnv) (heap : Heap)
    (self : ServerStartupInfo) (executableName : CString) (w0 : WorkerStartupInfo)
    (rest : List WorkerStartupInfo) (hworker : self.workersInfo = w0 :: rest) :
    (serverCreateProcess env heap self executableName).map (fun launch => launch.commandLine) =
      some ([' '].intercalate (launchFields heap self w0 executableName)) ∧
    (launchFields heap self w0 executableName).length = 15 ∧
    ((∀ s ∈ launchStrings heap self w0 executableName, ' ' ∉ s) →
      (serverCreateProcess env heap self executableName).map (fun launch => launch.argv) =
        some (launchFields heap self w0 executableName)) := by
  have hline : zsys_sprintf "%s %d %s %d %s %s %s %s %s %d %d %s".toList
      [FmtArg.str (zsys_sprintf "%s %d %s %d".toList
        [FmtArg.str executableName,
         FmtArg.int self.routerInfo.routerId,
         FmtArg.str (heap self.routerInfo.ip),
         FmtArg.int self.routerInfo.port]),
       FmtArg.int self.routerInfo.workersCount,
       FmtArg.str (heap w0.globalServerIp),
       FmtArg.int w0.globalServerPort,
       FmtArg.str (heap w0.sqlInfo.hostname), FmtArg.str (heap w0.sqlInfo.user),
       FmtArg.str (heap w0.sqlInfo.password), FmtArg.str (heap w0.sqlInfo.database),
       FmtArg.str (heap w0.redisInfo.hostname), FmtArg.int w0.redisInfo.port,
       FmtArg.int self.serverType,
       FmtArg.str (heap self.output)]
      = [' '].intercalate (launchFields heap self w0 executableName) := by
    simp [zsys_sprintf, List.intercalate, launchFields]
  have hcmd : (serverCreateProcess env heap self executableName).map
      (fun launch => launch.commandLine) =
      some ([' '].intercalate (launchFields heap self w0 executableName)) := by
    rw [← hline]
    by_cases hf : env.fork = 0
    · cases he : env.execvFails <;> simp [serverCreateProcess, hworker, hf, he]
    · simp [serverCreateProcess, hworker, hf]
  refine ⟨hcmd, rfl, ?_⟩
  intro hspace
  have hfields : ∀ l ∈ launchFields heap self w0 executableName, ' ' ∉ l := by
    intro l hl
    simp only [launchFields, List.mem_cons, List.mem_singleton, List.not_mem_nil,
      or_false] at hl
    simp only [launchStrings, List.mem_cons, List.mem_singleton, List.not_mem_nil, or_false,
      forall_eq_or_imp, forall_eq] at hspace
    obtain ⟨s1, s2, s3, s4, s5, s6, s7, s8, s9⟩ := hspace
    rcases hl with rfl | rfl | rfl | rfl | rfl | rfl | rfl | rfl | rfl | rfl | rfl | rfl |
      rfl | rfl | rfl
    · exact s1
    · exact decimal_no_space _
    · exact s2
    · exact decimal_no_space _
    · exact decimal_no_space _
    · exact s3
    · exact decimal_no_space _
    · exact s4
    · exact s5
    · exact s6
    · exact s7
    · exact s8
    · exact decimal_no_space _
    · exact decimal_no_space _
    · exact s9
  have hsplit := List.splitOn_intercalate (launchFields heap self w0 executableName) ' '
    hfields (by simp [launchFields])
  have hargv : (serverCreateProcess env heap self executableName).map
      (fun launch => launch.argv) =
      some (strSplit ([' '].intercalate (launchFields heap self w0 executableName)) ' ') := by
    rw [← hline]
    by_cases hf : env.fork = 0
    · cases he : env.execvFails <;> simp [serverCreateProcess, hworker, hf, he]
    · simp [serverCreateProcess, hworker, hf]
  rw [hargv, strSplit, hsplit]

/-- Witness of C6, amended: the three-worker snapshot, none of whose strings
holds a space. -/
theorem serverCreateProcess_commandLine_witness :
    exampleInfo3.workersInfo = exampleWorker :: [exampleWorker, exampleWorker] ∧
    (∀ s ∈ launchStrings exampleHeap exampleInfo3 exampleWorker "zone_server".toList,
      ' ' ∉ s) ∧
    (serverCreateProcess procEnvParent exampleHeap exampleInfo3 "zone_server".toList).map
        (fun launch => launch.argv) =
      some (launchFields exampleHeap exampleInfo3 exampleWorker "zone_server".toList) :=
  ⟨rfl, by decide,
    (serverCreateProcess_commandLine procEnvParent exampleHeap exampleInfo3
      "zone_server".toList exampleWorker [exampleWorker, exampleWorker] rfl).2.2 (by decide)⟩

end R1emu
